import Mathlib

/-!
Verification development for the golfhelper video-organizing tool
(`src/script.py`).  The script is sequential filesystem orchestration:
a `setup_tool` command persisting a two-key configuration record, and an
`organize` command that places one input video into a date-partitioned
directory tree, remuxing `.mov` inputs and compressing oversized files
via an external ffmpeg collaborator.

The embedding models the filesystem as an explicit state (`FS`): a list
of existing directories and an association list from file path to byte
content, plus a slot for the parsed configuration document (the YAML
serialization layer is external to the script, so the persisted document
is modelled structurally).  Python-level unhandled exceptions are
modelled by exception-name outcomes; messages passed to `logger.error`
are collected in an error log.  The external ffmpeg collaborator is a
parameter: `remuxFn` (stream-copy remux of `.mov` to `.mp4`) and
`compressFn` (re-encode at half resolution), each mapping input bytes to
output bytes; a run whose input file is absent produces no output file.
-/

namespace GolfHelper

/-- Byte content of a regular file. -/
abbrev Bytes := List Nat

/-- Python `str.lower()` (ASCII case folding, per character). -/
def pyLower (s : String) : String := ⟨s.data.map Char.toLower⟩

/-- Python `str.endswith(post)`. -/
def pyEndsWith (s post : String) : Bool := post.data.isSuffixOf s.data

/-- Python `str.startswith(pre)`. -/
def pyStartsWith (s pre : String) : Bool := pre.data.isPrefixOf s.data

/-- Drop the first `n` characters of `s` (used for `~` expansion). -/
def pyDrop (s : String) (n : Nat) : String := ⟨s.data.drop n⟩

/-- The parsed configuration document (`config.yaml` after
`yaml.safe_load`): a flat mapping whose two expected keys may each be
absent in a hand-edited file. -/
structure ConfigDoc where
  root : Option String
  maxVideoSizeMB : Option Nat
deriving Repr, DecidableEq

/-- Filesystem state: directories that exist, regular files with their
byte content, and the content of the per-user configuration file
(`none` when the file does not exist). -/
structure FS where
  dirs : List String
  files : List (String × Bytes)
  configFile : Option ConfigDoc
deriving Repr, DecidableEq

/-- Content of the regular file at `p`, if present (`open(p).read()`). -/
def FS.readFile (fs : FS) (p : String) : Option Bytes :=
  (fs.files.find? fun kv => kv.1 == p).map Prod.snd

/-- Create or overwrite the regular file at `p` with content `b`. -/
def FS.writeFile (fs : FS) (p : String) (b : Bytes) : FS :=
  { fs with files := (p, b) :: fs.files.filter fun kv => !(kv.1 == p) }

/-- Delete the regular file at `p` (`os.remove` after an existence
check; the check is done by the callers). -/
def FS.removeFile (fs : FS) (p : String) : FS :=
  { fs with files := fs.files.filter fun kv => !(kv.1 == p) }

/-- `os.path.exists p`: true for directories and for regular files. -/
def FS.existsPath (fs : FS) (p : String) : Bool :=
  fs.dirs.contains p || (fs.readFile p).isSome

/-- `os.makedirs(p, exist_ok=True)`: record the directory if absent. -/
def FS.makedirs (fs : FS) (p : String) : FS :=
  if fs.dirs.contains p then fs else { fs with dirs := p :: fs.dirs }

/-- Scan bound for the collision-counter loop: strictly more than the
number of paths that exist, so a free index always lies below it. -/
def FS.fuel (fs : FS) : Nat :=
  fs.files.length + fs.dirs.length + 1

/-- `os.path.join a b` for the shapes used by the script (relative
second component). -/
def joinPath (a b : String) : String := a ++ "/" ++ b

/-- `os.path.expanduser` for paths starting with the `~` shorthand. -/
def expanduser (home p : String) : String :=
  if pyStartsWith p "~" then home ++ pyDrop p 1 else p

/-- `os.name`: the platform family the script dispatches on. -/
inductive OSName where
  | posix
  | nt
  | other (name : String)
deriving Repr, DecidableEq

def CONFIG_DIRECTORY_NAME : String := "golfhelper"

/-- `get_config_dir` (script lines 153-159): `~/.config/golfhelper` on
POSIX, `%APPDATA%/golfhelper` on Windows, `OSError` otherwise. -/
def get_config_dir (osn : OSName) (home appdata : String) : Except String String :=
  match osn with
  | .posix => .ok (expanduser home ("~/.config/" ++ CONFIG_DIRECTORY_NAME))
  | .nt => .ok (joinPath appdata CONFIG_DIRECTORY_NAME)
  | .other _ => .error "OSError: Unsupported operating system"

/-- What a call to `get_config` produces when no exception escapes:
the Python return value (`None` or the parsed document), together with
the messages it passed to `logger.error`. -/
structure GetConfigResult where
  value : Option ConfigDoc
  logged : List String
deriving Repr, DecidableEq

/-- `get_config` (script lines 161-169): if the config directory does
not exist, log a not-configured error and return `None`; otherwise open
and parse the config file (raising `FileNotFoundError` when the file is
absent even though the directory exists). -/
def get_config (osn : OSName) (home appdata : String) (fs : FS) :
    Except String GetConfigResult :=
  match get_config_dir osn home appdata with
  | .error e => .error e
  | .ok config_dir =>
    if !(fs.existsPath config_dir) then
      .ok ⟨none, ["Config not found. Have you run setup? Try golfhelper --help for details"]⟩
    else
      match fs.configFile with
      | none => .error "FileNotFoundError"
      | some doc => .ok ⟨some doc, []⟩

/-- `setup_tool` (script lines 49-67): expand a leading `~` in the root
argument, create the config directory if absent, create the root
directory (`exist_ok=True`), and write the two-key record, overwriting
any prior config file. -/
def setup_tool (osn : OSName) (home appdata : String) (rootArg : String)
    (max_video_size_mb : Nat) (fs : FS) : Except String FS :=
  let root := if pyStartsWith rootArg "~" then expanduser home rootArg else rootArg
  match get_config_dir osn home appdata with
  | .error e => .error e
  | .ok config_dir =>
    let fs1 := if fs.existsPath config_dir then fs else fs.makedirs config_dir
    let fs2 := fs1.makedirs root
    .ok { fs2 with configFile := some ⟨some root, some max_video_size_mb⟩ }

/-- The directory-setup step of `organize` (script lines 92-98): create
`root/<date>`, its `videos` subdirectory and its `analyze` subdirectory,
each with `exist_ok=True`. -/
def setupDirs (root_dir date : String) (fs : FS) : FS :=
  let new_golf_dir := joinPath root_dir date
  let golf_video_dir := joinPath new_golf_dir "videos"
  let golf_analysis_dir := joinPath new_golf_dir "analyze"
  ((fs.makedirs new_golf_dir).makedirs golf_video_dir).makedirs golf_analysis_dir

/-- The output base name `dir/club_n` (script lines 101 and 106). -/
def clubBase (dir club : String) (n : Nat) : String :=
  joinPath dir (club ++ "_" ++ toString n)

/-- The compressed-output filename `dir/club_n.mp4` (script line 102). -/
def compName (dir club : String) (n : Nat) : String :=
  clubBase dir club n ++ ".mp4"

/-- The uncompressed-intermediate filename `dir/club_n_unc.mp4`
(script line 103). -/
def uncName (dir club : String) (n : Nat) : String :=
  clubBase dir club n ++ "_unc" ++ ".mp4"

/-- The collision-counter loop (script lines 100-108): starting at
index `n`, scan upward while `dir/club_<n>.mp4` exists.  The source
loop is unbounded (`while os.path.exists(...)`); it is embedded with
explicit fuel, and the lemmas below show that whenever any free index
lies below the fuel the scan stops exactly at the least free index,
which is how the loop behaves on every real directory (a directory has
finitely many entries, so `FS.fuel` always suffices). -/
def findCounter (fs : FS) (dir club : String) : Nat → Nat → Nat
  | 0, n => n
  | fuel + 1, n =>
    if fs.existsPath (compName dir club n) then findCounter fs dir club fuel (n + 1)
    else n

/-- How a run of `organize` up to the final-path report ends. -/
inductive MainOutcome where
  | ok (outputPath : String)
  | badFormat
  | exn (name : String)
deriving Repr, DecidableEq

/-- Result of `organize` up to (and including) reporting the created
output path, i.e. everything before the delete-original prompt. -/
structure MainResult where
  fs : FS
  errLog : List String
  outcome : MainOutcome
  remuxInvoked : Bool
  compressInvoked : Bool
deriving Repr, DecidableEq

/-- `organize` (script lines 73-142), up to and including reporting the
final output path — everything before the delete-original prompt.

Mirrors the source line by line: expand `~` in the video argument and
remember the original path; load the config (`config[ROOT]` on the
`None` returned for a missing config directory raises `TypeError`, and
a document missing a key raises `KeyError`); reject unsupported
extensions; create the date/videos/analyze directories; scan for the
first free collision counter; remux a `.mov` input into the `_unc.mp4`
intermediate via ffmpeg; then either compress (when the candidate
exceeds the byte threshold) or rename the candidate into place, and
remove the `_unc` intermediate if it still exists.  `os.path.getsize`
on an absent candidate raises `FileNotFoundError`. -/
def organizeMain (osn : OSName) (home appdata date : String)
    (remuxFn compressFn : Bytes → Bytes)
    (videoArg club : String) (fs0 : FS) : MainResult :=
  let video := if pyStartsWith videoArg "~" then expanduser home videoArg else videoArg
  match get_config osn home appdata fs0 with
  | .error e => ⟨fs0, [], .exn e, false, false⟩
  | .ok gcr =>
    match gcr.value with
    | none => ⟨fs0, gcr.logged, .exn "TypeError", false, false⟩
    | some doc =>
      match doc.root, doc.maxVideoSizeMB with
      | none, _ => ⟨fs0, gcr.logged, .exn "KeyError", false, false⟩
      | some _, none => ⟨fs0, gcr.logged, .exn "KeyError", false, false⟩
      | some root_dir, some maxMB =>
        let max_video_size_bytes := maxMB * 1024 * 1024
        if !(pyEndsWith (pyLower video) ".mov") && !(pyEndsWith (pyLower video) ".mp4") then
          ⟨fs0, gcr.logged ++ ["Video provided is not a supported format."], .badFormat,
            false, false⟩
        else
          let golf_video_dir := joinPath (joinPath root_dir date) "videos"
          let fs1 := setupDirs root_dir date fs0
          let counter := findCounter fs1 golf_video_dir club fs1.fuel 0
          let output_file_compressed := compName golf_video_dir club counter
          let output_file_uncompressed := uncName golf_video_dir club counter
          let step6 : FS × String × Bool :=
            if pyEndsWith (pyLower video) ".mov" then
              match fs1.readFile video with
              | some b =>
                (fs1.writeFile output_file_uncompressed (remuxFn b),
                  output_file_uncompressed, true)
              | none => (fs1, output_file_uncompressed, true)
            else (fs1, video, false)
          let fs2 := step6.1
          let video2 := step6.2.1
          let remuxed := step6.2.2
          match fs2.readFile video2 with
          | none => ⟨fs2, gcr.logged, .exn "FileNotFoundError", remuxed, false⟩
          | some cb =>
            let step7 : FS × Bool :=
              if cb.length > max_video_size_bytes then
                (fs2.writeFile output_file_compressed (compressFn cb), true)
              else ((fs2.removeFile video2).writeFile output_file_compressed cb, false)
            let fs3 := step7.1
            let fs4 :=
              if fs3.existsPath output_file_uncompressed then
                fs3.removeFile output_file_uncompressed
              else fs3
            ⟨fs4, gcr.logged, .ok output_file_compressed, remuxed, step7.2⟩

/-- Full result of `organize`, including the delete-original step. -/
structure OrgResult where
  fs : FS
  errLog : List String
  outcome : MainOutcome
  remuxInvoked : Bool
  compressInvoked : Bool
  deletedOriginal : Bool
deriving Repr, DecidableEq

/-- `organize` (script lines 73-145) in full: the main workflow
followed by the delete-original prompt (script lines 143-145).
`response` is the accepted answer of the `y/n/Y/N` prompt; on an
affirmative answer `os.remove(original_path)` runs, raising
`FileNotFoundError` when no file is present at the original path. -/
def organize (osn : OSName) (home appdata date : String)
    (remuxFn compressFn : Bytes → Bytes)
    (videoArg club response : String) (fs0 : FS) : OrgResult :=
  let original_path := if pyStartsWith videoArg "~" then expanduser home videoArg else videoArg
  let m := organizeMain osn home appdata date remuxFn compressFn videoArg club fs0
  match m.outcome with
  | .ok out =>
    if pyLower response == "y" then
      match m.fs.readFile original_path with
      | none => ⟨m.fs, m.errLog, .exn "FileNotFoundError", m.remuxInvoked,
          m.compressInvoked, false⟩
      | some _ => ⟨m.fs.removeFile original_path, m.errLog, .ok out, m.remuxInvoked,
          m.compressInvoked, true⟩
    else ⟨m.fs, m.errLog, .ok out, m.remuxInvoked, m.compressInvoked, false⟩
  | o => ⟨m.fs, m.errLog, o, m.remuxInvoked, m.compressInvoked, false⟩

/-- The target videos directory `root/<date>/videos` computed by
`organize` (script line 94). -/
def chosenDir (R date : String) : String := joinPath (joinPath R date) "videos"

/-- The collision counter `organize` settles on (script lines 100-108),
as a function of the root, date, club and the directory state after the
`makedirs` calls. -/
def chosenCounter (R date club : String) (fs0 : FS) : Nat :=
  findCounter (setupDirs R date fs0) (chosenDir R date) club (setupDirs R date fs0).fuel 0

/-- The compressed-output path `organize` settles on (script line 102). -/
def chosenOutput (R date club : String) (fs0 : FS) : String :=
  compName (chosenDir R date) club (chosenCounter R date club fs0)

/-- The uncompressed-intermediate path at the chosen counter
(script line 103). -/
def chosenUnc (R date club : String) (fs0 : FS) : String :=
  uncName (chosenDir R date) club (chosenCounter R date club fs0)

/-! ### Basic filesystem lemmas -/

theorem find?_key_filter_self (p : String) (l : List (String × Bytes)) :
    (l.filter fun kv => !(kv.1 == p)).find? (fun kv => kv.1 == p) = none := by
  refine List.find?_eq_none.mpr ?_
  intro x hx
  have hmem := List.mem_filter.mp hx
  simpa using hmem.2

theorem find?_key_filter_ne {p q : String} (h : q ≠ p) (l : List (String × Bytes)) :
    (l.filter fun kv => !(kv.1 == p)).find? (fun kv => kv.1 == q) =
      l.find? (fun kv => kv.1 == q) := by
  induction l with
  | nil => rfl
  | cons a tl ih =>
    by_cases ha : a.1 = p
    · have hq : (a.1 == q) = false := by
        refine beq_eq_false_iff_ne.mpr ?_
        intro hh
        exact h (hh ▸ ha ▸ rfl)
      rw [List.filter_cons, if_neg (by simp [ha]), ih, List.find?_cons_of_neg _ (by simp [hq])]
    · rw [List.filter_cons, if_pos (by simp [ha])]
      by_cases hq : a.1 = q
      · rw [List.find?_cons_of_pos _ (by simp [hq]), List.find?_cons_of_pos _ (by simp [hq])]
      · rw [List.find?_cons_of_neg _ (by simp [hq]), List.find?_cons_of_neg _ (by simp [hq]), ih]

theorem readFile_writeFile (fs : FS) (p q : String) (b : Bytes) :
    (fs.writeFile p b).readFile q = if q = p then some b else fs.readFile q := by
  by_cases h : q = p
  · subst h
    simp [FS.readFile, FS.writeFile, List.find?_cons_of_pos]
  · simp only [FS.readFile, FS.writeFile, if_neg h]
    rw [List.find?_cons_of_neg _ (by simp [Ne.symm h]), find?_key_filter_ne h]

theorem readFile_removeFile (fs : FS) (p q : String) :
    (fs.removeFile p).readFile q = if q = p then none else fs.readFile q := by
  by_cases h : q = p
  · subst h
    simp [FS.readFile, FS.removeFile, find?_key_filter_self]
  · simp only [FS.readFile, FS.removeFile, if_neg h]
    rw [find?_key_filter_ne h]

theorem dirs_writeFile (fs : FS) (p : String) (b : Bytes) :
    (fs.writeFile p b).dirs = fs.dirs := rfl

theorem dirs_removeFile (fs : FS) (p : String) :
    (fs.removeFile p).dirs = fs.dirs := rfl

theorem files_makedirs (fs : FS) (p : String) :
    (fs.makedirs p).files = fs.files := by
  rw [FS.makedirs]
  split <;> rfl

theorem configFile_makedirs (fs : FS) (p : String) :
    (fs.makedirs p).configFile = fs.configFile := by
  rw [FS.makedirs]
  split <;> rfl

theorem readFile_makedirs (fs : FS) (p q : String) :
    (fs.makedirs p).readFile q = fs.readFile q := by
  unfold FS.readFile
  rw [files_makedirs]

theorem contains_makedirs (fs : FS) (p q : String) :
    (fs.makedirs p).dirs.contains q = ((q == p) || fs.dirs.contains q) := by
  rw [FS.makedirs]
  split
  · rename_i h
    by_cases hq : q = p
    · subst hq
      rw [h, Bool.or_true]
    · rw [beq_eq_false_iff_ne.mpr hq, Bool.false_or]
  · exact List.contains_cons

theorem existsPath_makedirs (fs : FS) (p q : String) :
    (fs.makedirs p).existsPath q = ((q == p) || fs.existsPath q) := by
  unfold FS.existsPath
  rw [contains_makedirs, readFile_makedirs, Bool.or_assoc]

theorem existsPath_writeFile (fs : FS) (p q : String) (b : Bytes) :
    (fs.writeFile p b).existsPath q = ((q == p) || fs.existsPath q) := by
  unfold FS.existsPath
  rw [dirs_writeFile, readFile_writeFile]
  by_cases h : q = p <;> simp [h]

theorem makedirs_of_contains {fs : FS} {p : String} (h : fs.dirs.contains p = true) :
    fs.makedirs p = fs := by
  rw [FS.makedirs, if_pos h]

theorem existsPath_setConfig (fs : FS) (c : Option ConfigDoc) (p : String) :
    ({ fs with configFile := c } : FS).existsPath p = fs.existsPath p := rfl

theorem existsPath_of_readFile_some {fs : FS} {p : String} {b : Bytes}
    (h : fs.readFile p = some b) : fs.existsPath p = true := by
  unfold FS.existsPath
  rw [h]
  simp

theorem readFile_setupDirs (r d : String) (fs : FS) (q : String) :
    (setupDirs r d fs).readFile q = fs.readFile q := by
  unfold setupDirs
  simp only [readFile_makedirs]

theorem files_setupDirs (r d : String) (fs : FS) :
    (setupDirs r d fs).files = fs.files := by
  unfold setupDirs
  simp only [files_makedirs]

theorem configFile_setupDirs (r d : String) (fs : FS) :
    (setupDirs r d fs).configFile = fs.configFile := by
  unfold setupDirs
  simp only [configFile_makedirs]

theorem existsPath_setupDirs (r d : String) (fs : FS) (q : String) :
    (setupDirs r d fs).existsPath q =
      ((q == joinPath (joinPath r d) "analyze") || (q == joinPath (joinPath r d) "videos") ||
        (q == joinPath r d) || fs.existsPath q) := by
  unfold setupDirs
  simp only [existsPath_makedirs, Bool.or_assoc]

/-! ### Collision-counter lemmas -/

theorem findCounter_ge (fs : FS) (dir club : String) :
    ∀ fuel n, n ≤ findCounter fs dir club fuel n := by
  intro fuel
  induction fuel with
  | zero => intro n; exact Nat.le_refl n
  | succ f ih =>
    intro n
    rw [findCounter]
    split
    · exact Nat.le_of_succ_le (ih (n + 1))
    · exact Nat.le_refl n

theorem findCounter_min (fs : FS) (dir club : String) :
    ∀ fuel n m, n ≤ m → m < findCounter fs dir club fuel n →
      fs.existsPath (compName dir club m) = true := by
  intro fuel
  induction fuel with
  | zero =>
    intro n m hnm hlt
    rw [findCounter] at hlt
    exact absurd hlt (Nat.not_lt.mpr hnm)
  | succ f ih =>
    intro n m hnm hlt
    rw [findCounter] at hlt
    by_cases h : fs.existsPath (compName dir club n) = true
    · rw [if_pos h] at hlt
      rcases Nat.eq_or_lt_of_le hnm with heq | hgt
      · exact heq ▸ h
      · exact ih (n + 1) m hgt hlt
    · rw [if_neg h] at hlt
      exact absurd hlt (Nat.not_lt.mpr hnm)

theorem findCounter_free (fs : FS) (dir club : String) :
    ∀ fuel n, (∃ k, k < fuel ∧ fs.existsPath (compName dir club (n + k)) = false) →
      fs.existsPath (compName dir club (findCounter fs dir club fuel n)) = false := by
  intro fuel
  induction fuel with
  | zero =>
    intro n h
    rcases h with ⟨k, hk, _⟩
    exact absurd hk (Nat.not_lt_zero k)
  | succ f ih =>
    intro n h
    rcases h with ⟨k, hk, hfree⟩
    rw [findCounter]
    by_cases hn : fs.existsPath (compName dir club n) = true
    · rw [if_pos hn]
      refine ih (n + 1) ⟨k - 1, ?_, ?_⟩
      · rcases Nat.eq_zero_or_pos k with rfl | hkpos
        · rw [Nat.add_zero] at hfree
          rw [hn] at hfree
          exact absurd hfree (by simp)
        · omega
      · rcases Nat.eq_zero_or_pos k with rfl | hkpos
        · rw [Nat.add_zero] at hfree
          rw [hn] at hfree
          exact absurd hfree (by simp)
        · have : n + 1 + (k - 1) = n + k := by omega
          rw [this]
          exact hfree
    · rw [if_neg hn]
      exact Bool.not_eq_true _ ▸ (by simpa using hn)

/-! ### Path distinctness and cleanup helpers -/

theorem compName_ne_uncName (dir club : String) (n : Nat) :
    compName dir club n ≠ uncName dir club n := by
  intro h
  have hl := congrArg String.length h
  have h4 : (".mp4" : String).length = 4 := rfl
  have hu : ("_unc" : String).length = 4 := rfl
  rw [compName, uncName, String.length_append, String.length_append,
    String.length_append, h4, hu] at hl
  omega

theorem ne_of_free {fs : FS} {p q : String} {b : Bytes}
    (hfree : fs.existsPath p = false) (hq : fs.readFile q = some b) : q ≠ p := by
  intro h
  rw [h] at hq
  have := existsPath_of_readFile_some hq
  rw [hfree] at this
  exact Bool.false_ne_true this

theorem readFile_cleanup_ne {fs : FS} {u q : String} (h : q ≠ u) :
    (if fs.existsPath u then fs.removeFile u else fs).readFile q = fs.readFile q := by
  split
  · rw [readFile_removeFile, if_neg h]
  · rfl

theorem readFile_cleanup_none {fs : FS} {u q : String} (h : fs.readFile q = none) :
    (if fs.existsPath u then fs.removeFile u else fs).readFile q = none := by
  split
  · rw [readFile_removeFile]
    split
    · rfl
    · exact h
  · exact h

/-! ### Unfolding the organize workflow on its two supported input formats -/

theorem get_config_of_doc {osn : OSName} {home appdata cdir : String} {fs : FS}
    {doc : ConfigDoc}
    (hcd : get_config_dir osn home appdata = .ok cdir)
    (hdir : fs.existsPath cdir = true)
    (hcfg : fs.configFile = some doc) :
    get_config osn home appdata fs = .ok ⟨some doc, []⟩ := by
  unfold get_config
  rw [hcd]
  simp [hdir, hcfg]

theorem organizeMain_mp4 {osn : OSName} {home appdata date videoArg club cdir R : String}
    {T : Nat} {fs0 : FS} {b : Bytes}
    (remuxFn compressFn : Bytes → Bytes)
    (hcd : get_config_dir osn home appdata = .ok cdir)
    (hdir : fs0.existsPath cdir = true)
    (hcfg : fs0.configFile = some ⟨some R, some T⟩)
    (htl : pyStartsWith videoArg "~" = false)
    (hmov : pyEndsWith (pyLower videoArg) ".mov" = false)
    (hmp4 : pyEndsWith (pyLower videoArg) ".mp4" = true)
    (hread : fs0.readFile videoArg = some b) :
    organizeMain osn home appdata date remuxFn compressFn videoArg club fs0 =
      (let fs1 := setupDirs R date fs0
       let gdir := joinPath (joinPath R date) "videos"
       let n := findCounter fs1 gdir club fs1.fuel 0
       let comp := compName gdir club n
       let unc := uncName gdir club n
       let step7 : FS × Bool :=
         if b.length > T * 1024 * 1024 then (fs1.writeFile comp (compressFn b), true)
         else ((fs1.removeFile videoArg).writeFile comp b, false)
       let fs4 := if step7.1.existsPath unc then step7.1.removeFile unc else step7.1
       ⟨fs4, [], .ok comp, false, step7.2⟩) := by
  unfold organizeMain
  rw [get_config_of_doc hcd hdir hcfg]
  simp [htl, hmov, hmp4, readFile_setupDirs, hread]

theorem organizeMain_mov {osn : OSName} {home appdata date videoArg club cdir R : String}
    {T : Nat} {fs0 : FS} {b : Bytes}
    (remuxFn compressFn : Bytes → Bytes)
    (hcd : get_config_dir osn home appdata = .ok cdir)
    (hdir : fs0.existsPath cdir = true)
    (hcfg : fs0.configFile = some ⟨some R, some T⟩)
    (htl : pyStartsWith videoArg "~" = false)
    (hmov : pyEndsWith (pyLower videoArg) ".mov" = true)
    (hread : fs0.readFile videoArg = some b) :
    organizeMain osn home appdata date remuxFn compressFn videoArg club fs0 =
      (let fs1 := setupDirs R date fs0
       let gdir := joinPath (joinPath R date) "videos"
       let n := findCounter fs1 gdir club fs1.fuel 0
       let comp := compName gdir club n
       let unc := uncName gdir club n
       let fs2 := fs1.writeFile unc (remuxFn b)
       let step7 : FS × Bool :=
         if (remuxFn b).length > T * 1024 * 1024 then
           (fs2.writeFile comp (compressFn (remuxFn b)), true)
         else ((fs2.removeFile unc).writeFile comp (remuxFn b), false)
       let fs4 := if step7.1.existsPath unc then step7.1.removeFile unc else step7.1
       ⟨fs4, [], .ok comp, true, step7.2⟩) := by
  unfold organizeMain
  rw [get_config_of_doc hcd hdir hcfg]
  simp [htl, hmov, readFile_setupDirs, readFile_writeFile, hread]

/-! ### Claim theorems -/

/-- C8: The directory-setup step of `organize` (creating `root/<date>`,
its `videos` subdirectory and its `analyze` subdirectory, each with
`exist_ok=True`) is idempotent: a second run on the same date raises no
error (the embedded `makedirs` is total, mirroring `exist_ok=True`) and
produces exactly the same directory structure as a single run. -/
theorem setupDirs_idempotent (root_dir date : String) (fs : FS) :
    setupDirs root_dir date (setupDirs root_dir date fs) = setupDirs root_dir date fs := by
  simp only [setupDirs]
  have h1 : (((fs.makedirs (joinPath root_dir date)).makedirs
      (joinPath (joinPath root_dir date) "videos")).makedirs
      (joinPath (joinPath root_dir date) "analyze")).dirs.contains
        (joinPath root_dir date) = true := by
    rw [contains_makedirs, contains_makedirs, contains_makedirs]
    simp [beq_self_eq_true]
  rw [makedirs_of_contains h1]
  have h2 : (((fs.makedirs (joinPath root_dir date)).makedirs
      (joinPath (joinPath root_dir date) "videos")).makedirs
      (joinPath (joinPath root_dir date) "analyze")).dirs.contains
        (joinPath (joinPath root_dir date) "videos") = true := by
    rw [contains_makedirs, contains_makedirs, contains_makedirs]
    simp [beq_self_eq_true]
  rw [makedirs_of_contains h2]
  have h3 : (((fs.makedirs (joinPath root_dir date)).makedirs
      (joinPath (joinPath root_dir date) "videos")).makedirs
      (joinPath (joinPath root_dir date) "analyze")).dirs.contains
        (joinPath (joinPath root_dir date) "analyze") = true := by
    rw [contains_makedirs, contains_makedirs, contains_makedirs]
    simp [beq_self_eq_true]
  rw [makedirs_of_contains h3]

/-- C9: On every platform that is neither POSIX-like nor Windows-like,
config-directory resolution raises `OSError`, and consequently both the
setup operation (Save) and config loading (Load) fail fatally at
config-directory resolution, for all arguments and filesystem states. -/
theorem unsupported_platform_fatal (s home appdata rootArg : String) (T : Nat) (fs : FS) :
    get_config_dir (.other s) home appdata = .error "OSError: Unsupported operating system" ∧
    setup_tool (.other s) home appdata rootArg T fs =
      .error "OSError: Unsupported operating system" ∧
    get_config (.other s) home appdata fs =
      .error "OSError: Unsupported operating system" := by
  exact ⟨rfl, rfl, rfl⟩

/-- C7: Config round-trip: for every root `R` (no leading `~` shorthand)
and threshold `T`, running `setup_tool` and then `get_config` yields a
configuration document whose root is exactly `R` and whose
max-video-size is exactly `T` (on any platform where the config
directory resolves). -/
theorem config_roundtrip {osn : OSName} {home appdata cdir : String} (R : String) (T : Nat)
    (fs : FS)
    (hcd : get_config_dir osn home appdata = .ok cdir)
    (hR : pyStartsWith R "~" = false) :
    ∃ fs', setup_tool osn home appdata R T fs = .ok fs' ∧
      get_config osn home appdata fs' = .ok ⟨some ⟨some R, some T⟩, []⟩ := by
  refine ⟨{ (if fs.existsPath cdir then fs else fs.makedirs cdir).makedirs R with
      configFile := some ⟨some R, some T⟩ }, ?_, ?_⟩
  · unfold setup_tool
    rw [hcd]
    simp [hR]
  · have hex : ((if fs.existsPath cdir then fs else fs.makedirs cdir).makedirs R).existsPath
        cdir = true := by
      rw [existsPath_makedirs]
      split
      · rename_i hfs
        rw [hfs, Bool.or_true]
      · rw [existsPath_makedirs]
        simp
    unfold get_config
    rw [hcd]
    simp [existsPath_setConfig, hex]

/-- C7 witness: a concrete round-trip on POSIX with root `/r` and
threshold 5. -/
theorem config_roundtrip_witness :
    get_config_dir .posix "/h" "" = .ok "/h/.config/golfhelper" ∧
    pyStartsWith "/r" "~" = false ∧
    ∃ fs', setup_tool .posix "/h" "" "/r" 5 ⟨[], [], none⟩ = .ok fs' ∧
      get_config .posix "/h" "" fs' = .ok ⟨some ⟨some "/r", some 5⟩, []⟩ :=
  ⟨rfl, by decide, config_roundtrip "/r" 5 ⟨[], [], none⟩ rfl (by decide)⟩

/-- C2 (claim is right, code has a slip): invoking `organize` before
setup, with the config directory absent, the code does log the
not-configured report and touches nothing on disk, but it does not
abort cleanly: `get_config` returns `None` and `organize` immediately
subscripts it (`config[CONFIG_KEYS.ROOT.name]`), raising an unhandled
`TypeError`.  Evaluation of the embedding at a concrete unconfigured
state. -/
theorem organize_unconfigured_reports_then_crashes :
    organize .posix "/h" "" "25-01-01" id id "/v/a.mp4" "D" "n"
        ⟨[], [("/v/a.mp4", [1])], none⟩ =
      ⟨⟨[], [("/v/a.mp4", [1])], none⟩,
        ["Config not found. Have you run setup? Try golfhelper --help for details"],
        .exn "TypeError", false, false, false⟩ := by decide

/-- C10: when the config directory exists but the config file inside it
is absent, `get_config` does not produce the reported not-configured
condition (its existence check covers only the directory): opening the
file raises `FileNotFoundError`, which propagates out of `organize`
unhandled, with nothing logged and no filesystem modification.
Likewise, a parsed document missing the `ROOT` key makes `organize`
crash with `KeyError` when indexing the configuration. -/
theorem config_file_missing_unhandled {osn : OSName}
    {home appdata cdir date videoArg club response : String}
    (remuxFn compressFn : Bytes → Bytes) (fsA fsB : FS) (mm : Option Nat)
    (hcd : get_config_dir osn home appdata = .ok cdir)
    (hdirA : fsA.existsPath cdir = true)
    (hnoneA : fsA.configFile = none)
    (hdirB : fsB.existsPath cdir = true)
    (hkeyB : fsB.configFile = some ⟨none, mm⟩) :
    get_config osn home appdata fsA = .error "FileNotFoundError" ∧
    organize osn home appdata date remuxFn compressFn videoArg club response fsA =
      ⟨fsA, [], .exn "FileNotFoundError", false, false, false⟩ ∧
    organize osn home appdata date remuxFn compressFn videoArg club response fsB =
      ⟨fsB, [], .exn "KeyError", false, false, false⟩ := by
  have hgcA : get_config osn home appdata fsA = .error "FileNotFoundError" := by
    unfold get_config
    rw [hcd]
    simp [hdirA, hnoneA]
  have hgcB : get_config osn home appdata fsB = .ok ⟨some ⟨none, mm⟩, []⟩ :=
    get_config_of_doc hcd hdirB hkeyB
  refine ⟨hgcA, ?_, ?_⟩
  · unfold organize organizeMain
    rw [hgcA]
  · unfold organize organizeMain
    rw [hgcB]

/-- C10 witness: concrete states — config directory present with the
file absent, and with a document missing the `ROOT` key. -/
theorem config_file_missing_unhandled_witness :
    get_config_dir .posix "/h" "" = .ok "/h/.config/golfhelper" ∧
    (⟨["/h/.config/golfhelper"], [("/v/a.mp4", [1])], none⟩ : FS).existsPath
      "/h/.config/golfhelper" = true ∧
    (⟨["/h/.config/golfhelper"], [("/v/a.mp4", [1])], none⟩ : FS).configFile = none ∧
    (⟨["/h/.config/golfhelper"], [("/v/a.mp4", [1])],
      some ⟨none, some 5⟩⟩ : FS).existsPath "/h/.config/golfhelper" = true ∧
    (⟨["/h/.config/golfhelper"], [("/v/a.mp4", [1])],
      some ⟨none, some 5⟩⟩ : FS).configFile = some ⟨none, some 5⟩ ∧
    (get_config .posix "/h" "" ⟨["/h/.config/golfhelper"], [("/v/a.mp4", [1])], none⟩ =
        .error "FileNotFoundError" ∧
      organize .posix "/h" "" "25-01-01" id id "/v/a.mp4" "D" "n"
          ⟨["/h/.config/golfhelper"], [("/v/a.mp4", [1])], none⟩ =
        ⟨⟨["/h/.config/golfhelper"], [("/v/a.mp4", [1])], none⟩, [],
          .exn "FileNotFoundError", false, false, false⟩ ∧
      organize .posix "/h" "" "25-01-01" id id "/v/a.mp4" "D" "n"
          ⟨["/h/.config/golfhelper"], [("/v/a.mp4", [1])], some ⟨none, some 5⟩⟩ =
        ⟨⟨["/h/.config/golfhelper"], [("/v/a.mp4", [1])], some ⟨none, some 5⟩⟩, [],
          .exn "KeyError", false, false, false⟩) :=
  ⟨rfl, by decide, rfl, by decide, rfl,
    config_file_missing_unhandled id id _ _ (some 5) rfl (by decide) rfl (by decide) rfl⟩

/-- C6: for every configured state and every input path (without the
`~` shorthand) whose extension, case-insensitively, is neither `.mov`
nor `.mp4`, `organize` logs the unsupported-format report and returns
with the filesystem completely unchanged — no date directory, videos
directory or analyze directory is created and no file is written, moved
or deleted, whatever the prompt answer would have been. -/
theorem unsupported_format_no_side_effects {osn : OSName}
    {home appdata date videoArg club cdir R : String} {T : Nat} {fs0 : FS}
    (remuxFn compressFn : Bytes → Bytes)
    (hcd : get_config_dir osn home appdata = .ok cdir)
    (hdir : fs0.existsPath cdir = true)
    (hcfg : fs0.configFile = some ⟨some R, some T⟩)
    (htl : pyStartsWith videoArg "~" = false)
    (hmov : pyEndsWith (pyLower videoArg) ".mov" = false)
    (hmp4 : pyEndsWith (pyLower videoArg) ".mp4" = false) :
    organizeMain osn home appdata date remuxFn compressFn videoArg club fs0 =
      ⟨fs0, ["Video provided is not a supported format."], .badFormat, false, false⟩ ∧
    ∀ response, organize osn home appdata date remuxFn compressFn videoArg club response fs0 =
      ⟨fs0, ["Video provided is not a supported format."], .badFormat, false, false, false⟩ := by
  have hmain : organizeMain osn home appdata date remuxFn compressFn videoArg club fs0 =
      ⟨fs0, ["Video provided is not a supported format."], .badFormat, false, false⟩ := by
    unfold organizeMain
    rw [get_config_of_doc hcd hdir hcfg]
    simp [htl, hmov, hmp4]
  refine ⟨hmain, fun response => ?_⟩
  unfold organize
  rw [hmain]

/-- C6 witness: a `.txt` input on a configured POSIX state. -/
theorem unsupported_format_no_side_effects_witness :
    get_config_dir .posix "/h" "" = .ok "/h/.config/golfhelper" ∧
    (⟨["/h/.config/golfhelper"], [("/v/a.txt", [1])],
      some ⟨some "/r", some 5⟩⟩ : FS).existsPath "/h/.config/golfhelper" = true ∧
    (⟨["/h/.config/golfhelper"], [("/v/a.txt", [1])],
      some ⟨some "/r", some 5⟩⟩ : FS).configFile = some ⟨some "/r", some 5⟩ ∧
    pyStartsWith "/v/a.txt" "~" = false ∧
    pyEndsWith (pyLower "/v/a.txt") ".mov" = false ∧
    pyEndsWith (pyLower "/v/a.txt") ".mp4" = false ∧
    (organizeMain .posix "/h" "" "25-01-01" id id "/v/a.txt" "D"
        ⟨["/h/.config/golfhelper"], [("/v/a.txt", [1])], some ⟨some "/r", some 5⟩⟩ =
      ⟨⟨["/h/.config/golfhelper"], [("/v/a.txt", [1])], some ⟨some "/r", some 5⟩⟩,
        ["Video provided is not a supported format."], .badFormat, false, false⟩ ∧
    ∀ response, organize .posix "/h" "" "25-01-01" id id "/v/a.txt" "D" response
        ⟨["/h/.config/golfhelper"], [("/v/a.txt", [1])], some ⟨some "/r", some 5⟩⟩ =
      ⟨⟨["/h/.config/golfhelper"], [("/v/a.txt", [1])], some ⟨some "/r", some 5⟩⟩,
        ["Video provided is not a supported format."], .badFormat, false, false, false⟩) :=
  ⟨rfl, by decide, rfl, by decide, by decide, by decide,
    unsupported_format_no_side_effects id id rfl (by decide) rfl (by decide) (by decide)
      (by decide)⟩

/-- C1 fails as stated: for a `.mp4` input under the threshold the
code renames (moves) the input to the output path, so the original does
NOT remain at its original path until the user answers the deletion
prompt affirmatively.  Concretely: with a negative answer (the user
never confirms deletion) the original path is already empty while the
byte-identical output exists, and an affirmative answer makes the
deletion step itself crash because the original is gone. -/
theorem mp4_original_not_left_in_place :
    (organize .posix "/h" "" "25-01-01" id id "/v/a.mp4" "D" "n"
        ⟨["/h/.config/golfhelper"], [("/v/a.mp4", [1, 2, 3])],
          some ⟨some "/r", some 5⟩⟩).outcome = .ok "/r/25-01-01/videos/D_0.mp4" ∧
    (organize .posix "/h" "" "25-01-01" id id "/v/a.mp4" "D" "n"
        ⟨["/h/.config/golfhelper"], [("/v/a.mp4", [1, 2, 3])],
          some ⟨some "/r", some 5⟩⟩).deletedOriginal = false ∧
    (organize .posix "/h" "" "25-01-01" id id "/v/a.mp4" "D" "n"
        ⟨["/h/.config/golfhelper"], [("/v/a.mp4", [1, 2, 3])],
          some ⟨some "/r", some 5⟩⟩).fs.readFile "/r/25-01-01/videos/D_0.mp4" =
      some [1, 2, 3] ∧
    (organize .posix "/h" "" "25-01-01" id id "/v/a.mp4" "D" "n"
        ⟨["/h/.config/golfhelper"], [("/v/a.mp4", [1, 2, 3])],
          some ⟨some "/r", some 5⟩⟩).fs.readFile "/v/a.mp4" = none ∧
    (organize .posix "/h" "" "25-01-01" id id "/v/a.mp4" "D" "y"
        ⟨["/h/.config/golfhelper"], [("/v/a.mp4", [1, 2, 3])],
          some ⟨some "/r", some 5⟩⟩).outcome = .exn "FileNotFoundError" := by
  decide

/-- C1 as amended: for every `.mp4` input whose byte size is at most
the threshold, `organize` produces the output at the computed path
byte-identical to the input — by moving (renaming) the input there, so
the original does not remain at its original path while the deletion
prompt is pending, and an affirmative answer to the prompt raises
`FileNotFoundError` instead of deleting anything.  Hypotheses: a
configured state, an input path without the `~` shorthand whose
lower-cased name ends in `.mp4` (and not `.mov`), the input file
present with bytes `b` of size at most the threshold, and termination
of the counter scan. -/
theorem mp4_under_threshold_moved_into_place {osn : OSName}
    {home appdata date videoArg club cdir R : String} {T : Nat} {fs0 : FS} {b : Bytes}
    (remuxFn compressFn : Bytes → Bytes)
    (hcd : get_config_dir osn home appdata = .ok cdir)
    (hdir : fs0.existsPath cdir = true)
    (hcfg : fs0.configFile = some ⟨some R, some T⟩)
    (htl : pyStartsWith videoArg "~" = false)
    (hmov : pyEndsWith (pyLower videoArg) ".mov" = false)
    (hmp4 : pyEndsWith (pyLower videoArg) ".mp4" = true)
    (hread : fs0.readFile videoArg = some b)
    (hsize : b.length ≤ T * 1024 * 1024)
    (hterm : ∃ k, k < (setupDirs R date fs0).fuel ∧
      (setupDirs R date fs0).existsPath (compName (chosenDir R date) club k) = false) :
    (organizeMain osn home appdata date remuxFn compressFn videoArg club fs0).outcome =
      .ok (chosenOutput R date club fs0) ∧
    (organizeMain osn home appdata date remuxFn compressFn videoArg club fs0).fs.readFile
      (chosenOutput R date club fs0) = some b ∧
    (organizeMain osn home appdata date remuxFn compressFn videoArg club fs0).fs.readFile
      videoArg = none ∧
    (organizeMain osn home appdata date remuxFn compressFn videoArg club fs0).compressInvoked
      = false ∧
    (organize osn home appdata date remuxFn compressFn videoArg club "y" fs0).outcome =
      .exn "FileNotFoundError" := by
  simp only [chosenOutput, chosenUnc, chosenCounter, chosenDir]
  have key := @organizeMain_mp4 osn home appdata date videoArg club cdir R T fs0 b
    remuxFn compressFn hcd hdir hcfg htl hmov hmp4 hread
  have hns : ¬ (b.length > T * 1024 * 1024) := by omega
  simp only [hns, if_false, ite_false] at key
  have hfree : (setupDirs R date fs0).existsPath
      (compName (joinPath (joinPath R date) "videos") club
        (findCounter (setupDirs R date fs0) (joinPath (joinPath R date) "videos") club
          (setupDirs R date fs0).fuel 0)) = false := by
    refine findCounter_free (setupDirs R date fs0) (joinPath (joinPath R date) "videos") club
      (setupDirs R date fs0).fuel 0 ?_
    simpa [chosenDir] using hterm
  have hread1 : (setupDirs R date fs0).readFile videoArg = some b := by
    rw [readFile_setupDirs]
    exact hread
  have hvne : videoArg ≠ compName (joinPath (joinPath R date) "videos") club
      (findCounter (setupDirs R date fs0) (joinPath (joinPath R date) "videos") club
        (setupDirs R date fs0).fuel 0) :=
    ne_of_free hfree hread1
  have hcu : compName (joinPath (joinPath R date) "videos") club
      (findCounter (setupDirs R date fs0) (joinPath (joinPath R date) "videos") club
        (setupDirs R date fs0).fuel 0) ≠
      uncName (joinPath (joinPath R date) "videos") club
        (findCounter (setupDirs R date fs0) (joinPath (joinPath R date) "videos") club
          (setupDirs R date fs0).fuel 0) :=
    compName_ne_uncName _ _ _
  have hmoved : (((setupDirs R date fs0).removeFile videoArg).writeFile
      (compName (joinPath (joinPath R date) "videos") club
        (findCounter (setupDirs R date fs0) (joinPath (joinPath R date) "videos") club
          (setupDirs R date fs0).fuel 0)) b).readFile videoArg = none := by
    rw [readFile_writeFile, if_neg hvne, readFile_removeFile, if_pos rfl]
  have hclean := readFile_cleanup_none
    (u := uncName (joinPath (joinPath R date) "videos") club
      (findCounter (setupDirs R date fs0) (joinPath (joinPath R date) "videos") club
        (setupDirs R date fs0).fuel 0)) hmoved
  refine ⟨?_, ?_, ?_, ?_, ?_⟩
  · rw [key]
  · rw [key]
    simp only [readFile_cleanup_ne hcu, readFile_writeFile]
    simp
  · rw [key]
    exact hclean
  · rw [key]
  · have hy : (pyLower "y" == "y") = true := rfl
    simp only [organize, key, htl, if_false, ite_false, Bool.false_eq_true, hy, if_true,
      ite_true, hclean]

/-- C1 amended witness: the concrete run of the amended statement. -/
theorem mp4_under_threshold_moved_into_place_witness :
    get_config_dir .posix "/h" "" = .ok "/h/.config/golfhelper" ∧
    (⟨["/h/.config/golfhelper"], [("/v/a.mp4", [1, 2, 3])],
      some ⟨some "/r", some 5⟩⟩ : FS).existsPath "/h/.config/golfhelper" = true ∧
    (⟨["/h/.config/golfhelper"], [("/v/a.mp4", [1, 2, 3])],
      some ⟨some "/r", some 5⟩⟩ : FS).configFile = some ⟨some "/r", some 5⟩ ∧
    pyStartsWith "/v/a.mp4" "~" = false ∧
    pyEndsWith (pyLower "/v/a.mp4") ".mov" = false ∧
    pyEndsWith (pyLower "/v/a.mp4") ".mp4" = true ∧
    (⟨["/h/.config/golfhelper"], [("/v/a.mp4", [1, 2, 3])],
      some ⟨some "/r", some 5⟩⟩ : FS).readFile "/v/a.mp4" = some [1, 2, 3] ∧
    ([1, 2, 3] : Bytes).length ≤ 5 * 1024 * 1024 ∧
    (∃ k, k < (setupDirs "/r" "25-01-01" ⟨["/h/.config/golfhelper"],
        [("/v/a.mp4", [1, 2, 3])], some ⟨some "/r", some 5⟩⟩).fuel ∧
      (setupDirs "/r" "25-01-01" ⟨["/h/.config/golfhelper"], [("/v/a.mp4", [1, 2, 3])],
        some ⟨some "/r", some 5⟩⟩).existsPath
        (compName (chosenDir "/r" "25-01-01") "D" k) = false) ∧
    ((organizeMain .posix "/h" "" "25-01-01" id id "/v/a.mp4" "D"
        ⟨["/h/.config/golfhelper"], [("/v/a.mp4", [1, 2, 3])],
          some ⟨some "/r", some 5⟩⟩).outcome =
      .ok (chosenOutput "/r" "25-01-01" "D" ⟨["/h/.config/golfhelper"],
        [("/v/a.mp4", [1, 2, 3])], some ⟨some "/r", some 5⟩⟩) ∧
    (organizeMain .posix "/h" "" "25-01-01" id id "/v/a.mp4" "D"
        ⟨["/h/.config/golfhelper"], [("/v/a.mp4", [1, 2, 3])],
          some ⟨some "/r", some 5⟩⟩).fs.readFile
      (chosenOutput "/r" "25-01-01" "D" ⟨["/h/.config/golfhelper"],
        [("/v/a.mp4", [1, 2, 3])], some ⟨some "/r", some 5⟩⟩) = some [1, 2, 3] ∧
    (organizeMain .posix "/h" "" "25-01-01" id id "/v/a.mp4" "D"
        ⟨["/h/.config/golfhelper"], [("/v/a.mp4", [1, 2, 3])],
          some ⟨some "/r", some 5⟩⟩).fs.readFile "/v/a.mp4" = none ∧
    (organizeMain .posix "/h" "" "25-01-01" id id "/v/a.mp4" "D"
        ⟨["/h/.config/golfhelper"], [("/v/a.mp4", [1, 2, 3])],
          some ⟨some "/r", some 5⟩⟩).compressInvoked = false ∧
    (organize .posix "/h" "" "25-01-01" id id "/v/a.mp4" "D" "y"
        ⟨["/h/.config/golfhelper"], [("/v/a.mp4", [1, 2, 3])],
          some ⟨some "/r", some 5⟩⟩).outcome = .exn "FileNotFoundError") :=
  ⟨rfl, by decide, rfl, by decide, by decide, by decide, by decide, by decide, by decide,
    mp4_under_threshold_moved_into_place id id rfl (by decide) rfl (by decide) (by decide)
      (by decide) (by decide) (by decide) (by decide)⟩

/-- C4: the compression step runs if and only if the candidate file's
byte size strictly exceeds `maxVideoSizeMB * 1024 * 1024`: a `.mp4`
candidate exactly at the threshold is not compressed and is renamed
into place (the output holds the original bytes), while any strictly
larger candidate is re-encoded (the output holds the collaborator's
compressed bytes).  For a `.mov` input the same strict comparison is
applied to the remuxed candidate (`organizeMain_mov`). -/
theorem compress_iff_strictly_over {osn : OSName}
    {home appdata date videoArg club cdir R : String} {T : Nat} {fs0 : FS} {b : Bytes}
    (remuxFn compressFn : Bytes → Bytes)
    (hcd : get_config_dir osn home appdata = .ok cdir)
    (hdir : fs0.existsPath cdir = true)
    (hcfg : fs0.configFile = some ⟨some R, some T⟩)
    (htl : pyStartsWith videoArg "~" = false)
    (hmov : pyEndsWith (pyLower videoArg) ".mov" = false)
    (hmp4 : pyEndsWith (pyLower videoArg) ".mp4" = true)
    (hread : fs0.readFile videoArg = some b) :
    ((organizeMain osn home appdata date remuxFn compressFn videoArg club fs0).compressInvoked
        = true ↔ T * 1024 * 1024 < b.length) ∧
    (b.length ≤ T * 1024 * 1024 →
      (organizeMain osn home appdata date remuxFn compressFn videoArg club fs0).fs.readFile
        (chosenOutput R date club fs0) = some b) ∧
    (T * 1024 * 1024 < b.length →
      (organizeMain osn home appdata date remuxFn compressFn videoArg club fs0).fs.readFile
        (chosenOutput R date club fs0) = some (compressFn b)) := by
  simp only [chosenOutput, chosenCounter, chosenDir]
  have key := @organizeMain_mp4 osn home appdata date videoArg club cdir R T fs0 b
    remuxFn compressFn hcd hdir hcfg htl hmov hmp4 hread
  have hcu : compName (joinPath (joinPath R date) "videos") club
      (findCounter (setupDirs R date fs0) (joinPath (joinPath R date) "videos") club
        (setupDirs R date fs0).fuel 0) ≠
      uncName (joinPath (joinPath R date) "videos") club
        (findCounter (setupDirs R date fs0) (joinPath (joinPath R date) "videos") club
          (setupDirs R date fs0).fuel 0) :=
    compName_ne_uncName _ _ _
  by_cases hgt : b.length > T * 1024 * 1024
  · simp only [hgt, if_true, ite_true] at key
    refine ⟨?_, ?_, ?_⟩
    · rw [key]
      simpa using hgt
    · intro h
      exact absurd hgt (by omega)
    · intro _
      rw [key]
      simp only [readFile_cleanup_ne hcu, readFile_writeFile]
      simp
  · simp only [hgt, if_false, ite_false] at key
    refine ⟨?_, ?_, ?_⟩
    · rw [key]
      simpa using hgt
    · intro _
      rw [key]
      simp only [readFile_cleanup_ne hcu, readFile_writeFile]
      simp
    · intro h
      exact absurd h hgt

/-- C4 witness: boundary instances at threshold `T = 0`: a candidate
of exactly threshold size (0 bytes) is renamed into place, not
compressed; a candidate one byte over is compressed. -/
theorem compress_iff_strictly_over_witness :
    get_config_dir .posix "/h" "" = .ok "/h/.config/golfhelper" ∧
    (organizeMain .posix "/h" "" "25-01-01" id id "/v/a.mp4" "D"
      ⟨["/h/.config/golfhelper"], [("/v/a.mp4", [])],
        some ⟨some "/r", some 0⟩⟩).compressInvoked = false ∧
    (organizeMain .posix "/h" "" "25-01-01" id id "/v/a.mp4" "D"
      ⟨["/h/.config/golfhelper"], [("/v/a.mp4", [9])],
        some ⟨some "/r", some 0⟩⟩).compressInvoked = true ∧
    (((organizeMain .posix "/h" "" "25-01-01" id id "/v/a.mp4" "D"
        ⟨["/h/.config/golfhelper"], [("/v/a.mp4", [])],
          some ⟨some "/r", some 0⟩⟩).compressInvoked = true ↔
        0 * 1024 * 1024 < ([] : Bytes).length) ∧
      (([] : Bytes).length ≤ 0 * 1024 * 1024 →
        (organizeMain .posix "/h" "" "25-01-01" id id "/v/a.mp4" "D"
          ⟨["/h/.config/golfhelper"], [("/v/a.mp4", [])],
            some ⟨some "/r", some 0⟩⟩).fs.readFile
          (chosenOutput "/r" "25-01-01" "D" ⟨["/h/.config/golfhelper"], [("/v/a.mp4", [])],
            some ⟨some "/r", some 0⟩⟩) = some []) ∧
      (0 * 1024 * 1024 < ([] : Bytes).length →
        (organizeMain .posix "/h" "" "25-01-01" id id "/v/a.mp4" "D"
          ⟨["/h/.config/golfhelper"], [("/v/a.mp4", [])],
            some ⟨some "/r", some 0⟩⟩).fs.readFile
          (chosenOutput "/r" "25-01-01" "D" ⟨["/h/.config/golfhelper"], [("/v/a.mp4", [])],
            some ⟨some "/r", some 0⟩⟩) = some (id []))) ∧
    (((organizeMain .posix "/h" "" "25-01-01" id id "/v/a.mp4" "D"
        ⟨["/h/.config/golfhelper"], [("/v/a.mp4", [9])],
          some ⟨some "/r", some 0⟩⟩).compressInvoked = true ↔
        0 * 1024 * 1024 < ([9] : Bytes).length) ∧
      (([9] : Bytes).length ≤ 0 * 1024 * 1024 →
        (organizeMain .posix "/h" "" "25-01-01" id id "/v/a.mp4" "D"
          ⟨["/h/.config/golfhelper"], [("/v/a.mp4", [9])],
            some ⟨some "/r", some 0⟩⟩).fs.readFile
          (chosenOutput "/r" "25-01-01" "D" ⟨["/h/.config/golfhelper"], [("/v/a.mp4", [9])],
            some ⟨some "/r", some 0⟩⟩) = some [9]) ∧
      (0 * 1024 * 1024 < ([9] : Bytes).length →
        (organizeMain .posix "/h" "" "25-01-01" id id "/v/a.mp4" "D"
          ⟨["/h/.config/golfhelper"], [("/v/a.mp4", [9])],
            some ⟨some "/r", some 0⟩⟩).fs.readFile
          (chosenOutput "/r" "25-01-01" "D" ⟨["/h/.config/golfhelper"], [("/v/a.mp4", [9])],
            some ⟨some "/r", some 0⟩⟩) = some (id [9]))) :=
  ⟨rfl, by decide, by decide,
    compress_iff_strictly_over id id rfl (by decide) rfl (by decide) (by decide) (by decide)
      (by decide),
    compress_iff_strictly_over id id rfl (by decide) rfl (by decide) (by decide) (by decide)
      (by decide)⟩

/-- C5: for every `.mov` input whose remuxed candidate is at most the
threshold, the workflow remuxes (the remux collaborator is invoked),
does not re-encode (compression is not invoked), moves the remuxed
intermediate to the final compressed-output path — which afterwards
holds exactly the remux output bytes — and at the end of the workflow
no file exists at the `_unc` intermediate path. -/
theorem mov_under_threshold_renamed {osn : OSName}
    {home appdata date videoArg club cdir R : String} {T : Nat} {fs0 : FS} {b : Bytes}
    (remuxFn compressFn : Bytes → Bytes)
    (hcd : get_config_dir osn home appdata = .ok cdir)
    (hdir : fs0.existsPath cdir = true)
    (hcfg : fs0.configFile = some ⟨some R, some T⟩)
    (htl : pyStartsWith videoArg "~" = false)
    (hmov : pyEndsWith (pyLower videoArg) ".mov" = true)
    (hread : fs0.readFile videoArg = some b)
    (hsize : (remuxFn b).length ≤ T * 1024 * 1024) :
    (organizeMain osn home appdata date remuxFn compressFn videoArg club fs0).outcome =
      .ok (chosenOutput R date club fs0) ∧
    (organizeMain osn home appdata date remuxFn compressFn videoArg club fs0).remuxInvoked
      = true ∧
    (organizeMain osn home appdata date remuxFn compressFn videoArg club fs0).compressInvoked
      = false ∧
    (organizeMain osn home appdata date remuxFn compressFn videoArg club fs0).fs.readFile
      (chosenOutput R date club fs0) = some (remuxFn b) ∧
    (organizeMain osn home appdata date remuxFn compressFn videoArg club fs0).fs.readFile
      (chosenUnc R date club fs0) = none := by
  simp only [chosenOutput, chosenUnc, chosenCounter, chosenDir]
  have key := @organizeMain_mov osn home appdata date videoArg club cdir R T fs0 b
    remuxFn compressFn hcd hdir hcfg htl hmov hread
  have hns : ¬ ((remuxFn b).length > T * 1024 * 1024) := by omega
  simp only [hns, if_false, ite_false] at key
  have hcu : compName (joinPath (joinPath R date) "videos") club
      (findCounter (setupDirs R date fs0) (joinPath (joinPath R date) "videos") club
        (setupDirs R date fs0).fuel 0) ≠
      uncName (joinPath (joinPath R date) "videos") club
        (findCounter (setupDirs R date fs0) (joinPath (joinPath R date) "videos") club
          (setupDirs R date fs0).fuel 0) :=
    compName_ne_uncName _ _ _
  have hXunc : ((((setupDirs R date fs0).writeFile
      (uncName (joinPath (joinPath R date) "videos") club
        (findCounter (setupDirs R date fs0) (joinPath (joinPath R date) "videos") club
          (setupDirs R date fs0).fuel 0)) (remuxFn b)).removeFile
      (uncName (joinPath (joinPath R date) "videos") club
        (findCounter (setupDirs R date fs0) (joinPath (joinPath R date) "videos") club
          (setupDirs R date fs0).fuel 0))).writeFile
      (compName (joinPath (joinPath R date) "videos") club
        (findCounter (setupDirs R date fs0) (joinPath (joinPath R date) "videos") club
          (setupDirs R date fs0).fuel 0)) (remuxFn b)).readFile
      (uncName (joinPath (joinPath R date) "videos") club
        (findCounter (setupDirs R date fs0) (joinPath (joinPath R date) "videos") club
          (setupDirs R date fs0).fuel 0)) = none := by
    rw [readFile_writeFile, if_neg (Ne.symm hcu), readFile_removeFile, if_pos rfl]
  refine ⟨?_, ?_, ?_, ?_, ?_⟩
  · rw [key]
  · rw [key]
  · rw [key]
  · rw [key]
    simp only [readFile_cleanup_ne hcu, readFile_writeFile]
    simp
  · rw [key]
    exact readFile_cleanup_none hXunc

/-- C5 witness: a concrete `.mov` input whose remux output (here the
input bytes with a container byte prepended) is under the threshold. -/
theorem mov_under_threshold_renamed_witness :
    get_config_dir .posix "/h" "" = .ok "/h/.config/golfhelper" ∧
    (⟨["/h/.config/golfhelper"], [("/v/b.mov", [4, 5])],
      some ⟨some "/r", some 5⟩⟩ : FS).readFile "/v/b.mov" = some [4, 5] ∧
    ((fun l => 0 :: l) ([4, 5] : Bytes)).length ≤ 5 * 1024 * 1024 ∧
    ((organizeMain .posix "/h" "" "25-01-01" (fun l => 0 :: l) id "/v/b.mov" "D"
        ⟨["/h/.config/golfhelper"], [("/v/b.mov", [4, 5])],
          some ⟨some "/r", some 5⟩⟩).outcome =
      .ok (chosenOutput "/r" "25-01-01" "D" ⟨["/h/.config/golfhelper"],
        [("/v/b.mov", [4, 5])], some ⟨some "/r", some 5⟩⟩) ∧
    (organizeMain .posix "/h" "" "25-01-01" (fun l => 0 :: l) id "/v/b.mov" "D"
        ⟨["/h/.config/golfhelper"], [("/v/b.mov", [4, 5])],
          some ⟨some "/r", some 5⟩⟩).remuxInvoked = true ∧
    (organizeMain .posix "/h" "" "25-01-01" (fun l => 0 :: l) id "/v/b.mov" "D"
        ⟨["/h/.config/golfhelper"], [("/v/b.mov", [4, 5])],
          some ⟨some "/r", some 5⟩⟩).compressInvoked = false ∧
    (organizeMain .posix "/h" "" "25-01-01" (fun l => 0 :: l) id "/v/b.mov" "D"
        ⟨["/h/.config/golfhelper"], [("/v/b.mov", [4, 5])],
          some ⟨some "/r", some 5⟩⟩).fs.readFile
      (chosenOutput "/r" "25-01-01" "D" ⟨["/h/.config/golfhelper"],
        [("/v/b.mov", [4, 5])], some ⟨some "/r", some 5⟩⟩) =
      some ((fun l => 0 :: l) [4, 5]) ∧
    (organizeMain .posix "/h" "" "25-01-01" (fun l => 0 :: l) id "/v/b.mov" "D"
        ⟨["/h/.config/golfhelper"], [("/v/b.mov", [4, 5])],
          some ⟨some "/r", some 5⟩⟩).fs.readFile
      (chosenUnc "/r" "25-01-01" "D" ⟨["/h/.config/golfhelper"],
        [("/v/b.mov", [4, 5])], some ⟨some "/r", some 5⟩⟩) = none) :=
  ⟨rfl, by decide, by decide,
    mov_under_threshold_renamed (fun l => 0 :: l) id rfl (by decide) rfl (by decide)
      (by decide) (by decide) (by decide)⟩

/-- C3: the collision counter `organize` settles on is the smallest
non-negative integer `N` such that `club_N.mp4` does not already exist
in the target videos directory; being a pure function of the directory
contents, the club label and the root/date, the chosen path is
deterministic.  The hypothesis states that a free index lies below the
scan bound, i.e. that the source's unbounded `while os.path.exists`
loop terminates — automatic on every real directory, which has finitely
many entries. -/
theorem counter_is_least_free_index (fs : FS) (dir club : String)
    (h : ∃ k, k < fs.fuel ∧ fs.existsPath (compName dir club k) = false) :
    fs.existsPath (compName dir club (findCounter fs dir club fs.fuel 0)) = false ∧
    ∀ m, m < findCounter fs dir club fs.fuel 0 →
      fs.existsPath (compName dir club m) = true := by
  constructor
  · refine findCounter_free fs dir club fs.fuel 0 ?_
    simpa using h
  · intro m hm
    exact findCounter_min fs dir club fs.fuel 0 m (Nat.zero_le m) hm

/-- C3 witness: with `d/D_0.mp4` and `d/D_1.mp4` present the chosen
counter is 2, the first free index. -/
theorem counter_is_least_free_index_witness :
    findCounter ⟨[], [("d/D_0.mp4", []), ("d/D_1.mp4", [])], none⟩ "d" "D"
      (FS.fuel ⟨[], [("d/D_0.mp4", []), ("d/D_1.mp4", [])], none⟩) 0 = 2 ∧
    compName "d" "D" 2 = "d/D_2.mp4" ∧
    (∃ k, k < (⟨[], [("d/D_0.mp4", []), ("d/D_1.mp4", [])], none⟩ : FS).fuel ∧
      (⟨[], [("d/D_0.mp4", []), ("d/D_1.mp4", [])], none⟩ : FS).existsPath
        (compName "d" "D" k) = false) ∧
    ((⟨[], [("d/D_0.mp4", []), ("d/D_1.mp4", [])], none⟩ : FS).existsPath
      (compName "d" "D" (findCounter ⟨[], [("d/D_0.mp4", []), ("d/D_1.mp4", [])], none⟩
        "d" "D" (FS.fuel ⟨[], [("d/D_0.mp4", []), ("d/D_1.mp4", [])], none⟩) 0)) = false ∧
    ∀ m, m < findCounter ⟨[], [("d/D_0.mp4", []), ("d/D_1.mp4", [])], none⟩ "d" "D"
        (FS.fuel ⟨[], [("d/D_0.mp4", []), ("d/D_1.mp4", [])], none⟩) 0 →
      (⟨[], [("d/D_0.mp4", []), ("d/D_1.mp4", [])], none⟩ : FS).existsPath
        (compName "d" "D" m) = true) :=
  ⟨by decide, by decide, by decide,
    counter_is_least_free_index ⟨[], [("d/D_0.mp4", []), ("d/D_1.mp4", [])], none⟩ "d" "D"
      (by decide)⟩

end GolfHelper
